import Mathlib

/-!
A verification development for the NFS_GUI_Sync repository
(`nfs_sync_backend.py`, `nfs_sync_gui.py`).

The backend's pure logic is embedded shallowly: the external world
(mount state, filesystem, the `rsync` subprocess, the clock) is passed
in explicitly as data, and the side effects the backend performs
(progress-callback invocations, subprocess invocations, configuration
persistence) are reified as values returned by the embedded functions.
-/

set_option autoImplicit false

namespace NFSSync

/-- Is `pre` an initial segment of `l`? -/
def leadsWith : List Char → List Char → Bool
  | [], _ => true
  | _ :: _, [] => false
  | a :: as, b :: bs => a = b && leadsWith as bs

/-- Does `sub` occur as a contiguous run in `l`?  Embeds Python's
`sub in s` on the character sequences. -/
def occursIn (sub : List Char) : List Char → Bool
  | [] => leadsWith sub []
  | c :: cs => leadsWith sub (c :: cs) || occursIn sub cs

/-- Does `sub` occur in `s` (Python's `sub in s`)? -/
def containsSub (s sub : String) : Bool :=
  occursIn sub.data s.data

/-- Worker for `pySplit`: split at each non-overlapping occurrence of
`sep` (non-empty), scanning left to right.  `fuel` bounds the number of
steps so the recursion is structural; `pySplit` supplies enough. -/
def splitSepGo (sep : List Char) : Nat → List Char → List Char → List (List Char)
  | 0, acc, rest => [acc.reverse ++ rest]
  | _ + 1, acc, [] => [acc.reverse]
  | fuel + 1, acc, c :: cs =>
    if leadsWith sep (c :: cs) then
      acc.reverse :: splitSepGo sep fuel [] ((c :: cs).drop sep.length)
    else
      splitSepGo sep fuel (c :: acc) cs

/-- Python's `s.split(sep)` for a non-empty separator `sep`. -/
def pySplit (s sep : String) : List String :=
  (splitSepGo sep.data (s.data.length + 1) [] s.data).map fun l => ⟨l⟩

/-- Characters Python's `str.split()` and `str.strip()` treat as
whitespace (the ASCII ones; the scanned tool output is ASCII). -/
def isPyWs (c : Char) : Bool :=
  c = ' ' || c = '\t' || c = '\n' || c = '\x0b' || c = '\x0c' || c = '\r'

/-- `line.split()[0]`: the first whitespace-delimited word, or `none`
when the line has none (where Python raises `IndexError`; the caller
wraps this in `try/except: pass`). -/
def firstWord (s : String) : Option String :=
  let t := s.data.dropWhile isPyWs
  if t.isEmpty then none else some ⟨t.takeWhile fun c => !isPyWs c⟩

/-- Python's `str.strip()` (ASCII whitespace). -/
def pyStrip (s : String) : String :=
  ⟨((s.data.dropWhile isPyWs).reverse.dropWhile isPyWs).reverse⟩

/-- Numeric value of a run of decimal digits. -/
def digitsVal (l : List Char) : Nat :=
  l.foldl (fun a c => a * 10 + (c.toNat - 48)) 0

/-- Python's `int(w)` on a whitespace-free word: an optional sign
followed by at least one decimal digit, else a `ValueError` (`none`).
(Python's underscore digit grouping is not modelled; the scanned rsync
counters contain none.) -/
def pyInt? (w : String) : Option Int :=
  match w.data with
  | '-' :: rest =>
    if rest ≠ [] ∧ rest.all Char.isDigit then some (-(digitsVal rest : Int)) else none
  | '+' :: rest =>
    if rest ≠ [] ∧ rest.all Char.isDigit then some (digitsVal rest : Int) else none
  | l => if l ≠ [] ∧ l.all Char.isDigit then some (digitsVal l : Int) else none

/-- ASCII lower-casing of one character (`str.lower()`; the scanned
keywords are ASCII). -/
def lowerChar (c : Char) : Char :=
  if 'A' ≤ c && c ≤ 'Z' then Char.ofNat (c.toNat + 32) else c

/-- Python's `s.lower()` (ASCII). -/
def pyLower (s : String) : String :=
  ⟨s.data.map lowerChar⟩

/-- Python's `s[:n]` (first `n` characters). -/
def pyTake (s : String) (n : Nat) : String :=
  ⟨s.data.take n⟩

/-- `pathlib.Path(p).name`: the final path component (empty for a root
or empty path).  Trailing slashes and repeated slashes are discarded,
as `pathlib` does when parsing. -/
def pathName (p : String) : String :=
  (((pySplit p "/").filter (fun c => c ≠ "")).getLast?).getD ""

/-- `pathlib`-style join `str(Path(a) / b)` for a relative second
operand, as used for `Path(mount_point) / target_path.lstrip('/')`.
(Normalization of redundant separators inside `a` or `b` is not
modelled; the configured mount points and targets contain none.) -/
def pathJoin (a b : String) : String :=
  if a.data.getLast? = some '/' then a ++ b else a ++ "/" ++ b

/-- `str.lstrip('/')`: drop all leading `'/'` characters. -/
def lstripSlash (s : String) : String :=
  String.mk (s.data.dropWhile (fun c => c = '/'))

/-- `str(e)` of the `IndexError` raised by indexing `[1]` into a
one-element list (CPython's message). -/
def indexErrorMsg : String := "list index out of range"

/-- The persisted configuration (`~/.config/nfs-sync/config.json`).
`sync_folders` is the ordered local→target mapping (a Python `dict`
preserving insertion order); `exclude_patterns` is written by the GUI's
settings dialog. -/
structure Config where
  nfs_server : String
  nfs_share : String
  mount_point : String
  sync_folders : List (String × String)
  auto_mount : Bool
  auto_sync : Bool
  sync_interval : Nat
  last_sync : Option String
  exclude_patterns : List String
  sudo_password : Option String
  deriving Repr, DecidableEq

/-- `get_default_config()` (fields absent from the default JSON are the
neutral values). -/
def get_default_config : Config :=
  { nfs_server := ""
    nfs_share := ""
    mount_point := "/mnt/unaspro"
    sync_folders := []
    auto_mount := false
    auto_sync := false
    sync_interval := 3600
    last_sync := none
    exclude_patterns := []
    sudo_password := none }

/-- The `stats` dictionary built by `sync_folders`. -/
structure Stats where
  files_transferred : Int
  total_size : String
  errors : List String
  deriving Repr, DecidableEq

/-- `stats` as initialized at the top of `sync_folders`. -/
def initStats : Stats :=
  { files_transferred := 0, total_size := "0", errors := [] }

/-- One observable action of `sync_folders`: a call of the supplied
`progress_callback` (its float argument `(idx / total) * 100` is
determined by the recorded `idx` and `total`), or an invocation of the
transfer subprocess with the given argument list. -/
inductive Action where
  | progress (idx total : Nat) (message : String)
  | runCmd (cmd : List String)
  deriving Repr, DecidableEq

/-- The possible outcomes of `subprocess.run` for one rsync
invocation: a completed process (return code, stdout, stderr), a
`TimeoutExpired`, or some other exception with message `str(e)`. -/
inductive RsyncOutcome where
  | completed (returncode : Int) (stdout stderr : String)
  | timeout
  | exn (msg : String)
  deriving Repr, DecidableEq

/-- The environment one loop iteration interacts with:
`full_target.parent.mkdir(...)` either succeeds or raises (with message
`str(e)`), and the rsync subprocess produces one `RsyncOutcome`. -/
structure PairEnv where
  mkdirError : Option String
  rsync : RsyncOutcome
  deriving Repr

/-- The environment of one `sync_folders` run: the `check_mount()`
result, `datetime.now().isoformat()`, and the per-iteration
environment, indexed by the 1-based pair index. -/
structure RunEnv where
  mounted : Bool
  now : String
  pair : Nat → PairEnv

/-- The rsync argument list built in the loop body of `sync_folders`. -/
def rsyncCmd (mount_point local_path target_path : String) : List String :=
  [ "rsync", "-avh", "--progress", "--delete",
    local_path ++ "/",
    pathJoin mount_point (lstripSlash target_path) ]

/-- One iteration of the stdout-scanning loop in the `returncode == 0`
branch: `none` models the uncaught `IndexError` from
`line.split('total size is')[1]` (reached when the line contains
`'total size'` case-insensitively but not the exact text
`'total size is'`); the inner `try/except: pass` around the
`int(...)` parse is modelled by `String.toInt?`. -/
def statLine (st : Stats) (line : String) : Option Stats :=
  if containsSub (pyLower line) "files transferred" then
    match firstWord line >>= pyInt? with
    | some n => some { st with files_transferred := st.files_transferred + n }
    | none => some st
  else if containsSub (pyLower line) "total size" then
    match pySplit line "total size is" with
    | _ :: second :: _ => some { st with total_size := pyStrip second }
    | _ => none
  else
    some st

/-- The stdout-scanning loop over `result.stdout.split('\n')`.  Returns
the updated stats and whether the loop raised (`true` = the
`IndexError` escaped; updates made by earlier lines are kept, as the
`stats` dict is mutated in place). -/
def scanStdout (st : Stats) : List String → Stats × Bool
  | [] => (st, false)
  | line :: rest =>
    match statLine st line with
    | some st' => scanStdout st' rest
    | none => (st, true)

/-- The message passed to `progress_callback` as pair `idx` of `total`
starts: `f"Sync {idx}/{total_folders}: {Path(local_path).name}"`. -/
def startMsg (idx total : Nat) (local_path : String) : String :=
  "Sync " ++ toString idx ++ "/" ++ toString total ++ ": " ++ pathName local_path

/-- One iteration of the pair loop in `sync_folders`, for the pair at
1-based index `idx`.  Returns the increments of `successful` and
`failed`, the updated stats, and the actions performed, in order. -/
def pairStep (mount_point : String) (pe : PairEnv) (idx total : Nat)
    (local_path target_path : String) (st : Stats) :
    Nat × Nat × Stats × List Action :=
  let startAct := Action.progress idx total (startMsg idx total local_path)
  match pe.mkdirError with
  | some e =>
    (0, 1, { st with errors := st.errors ++ ["Zielordner erstellen fehlgeschlagen: " ++ e] },
      [startAct])
  | none =>
    let cmd := rsyncCmd mount_point local_path target_path
    match pe.rsync with
    | .completed rc stdout stderr =>
      if rc = 0 then
        match scanStdout st (pySplit stdout "\n") with
        | (st', false) => (1, 0, st', [startAct, .runCmd cmd])
        | (st', true) =>
          (1, 1, { st' with errors := st'.errors ++ [local_path ++ ": " ++ indexErrorMsg] },
            [startAct, .runCmd cmd])
      else
        (0, 1, { st with errors := st.errors ++ [local_path ++ ": " ++ pyTake stderr 200] },
          [startAct, .runCmd cmd])
    | .timeout =>
      (0, 1, { st with errors := st.errors ++ [local_path ++ ": Timeout"] },
        [startAct, .runCmd cmd])
    | .exn m =>
      (0, 1, { st with errors := st.errors ++ [local_path ++ ": " ++ m] },
        [startAct, .runCmd cmd])

/-- The pair loop of `sync_folders`: `for idx, (local_path,
target_path) in enumerate(sync_folders.items(), 1)`.  Returns
(`successful`, `failed`, final stats, trace of actions). -/
def loopPairs (mount_point : String) (env : Nat → PairEnv) (total : Nat) :
    Nat → Stats → List (String × String) → Nat × Nat × Stats × List Action
  | _, st, [] => (0, 0, st, [])
  | idx, st, (l, t) :: rest =>
    let r1 := pairStep mount_point (env idx) idx total l t st
    let r2 := loopPairs mount_point env total (idx + 1) r1.2.2.1 rest
    (r1.1 + r2.1, r1.2.1 + r2.2.1, r2.2.2.1, r1.2.2.2 ++ r2.2.2.2)

/-- The delivered result and observable effects of one
`sync_folders` run. -/
structure SyncRunOut where
  /-- first component of the returned tuple -/
  ok : Bool
  /-- second component of the returned tuple -/
  message : String
  /-- third component of the returned tuple (`{}` on the precondition
  paths is recorded as `initStats`) -/
  stats : Stats
  /-- the local variable `successful` at return (0 on the
  precondition paths, which return before it exists) -/
  successful : Nat
  /-- the local variable `failed` at return -/
  failed : Nat
  /-- `self.config` after the call -/
  config : Config
  /-- whether `save_config()` was invoked by the run -/
  persisted : Bool
  /-- the `progress_callback` calls and subprocess invocations, in
  order -/
  trace : List Action
  deriving Repr

/-- `NFSSyncBackend.sync_folders`, with the outside world supplied as
`env`.  The returned `(success, message, stats)` triple is the first
three fields of the result; the remaining fields record the run's
observable effects. -/
def sync_folders (cfg : Config) (env : RunEnv) : SyncRunOut :=
  if env.mounted = false then
    { ok := false, message := "❌ NFS nicht gemountet", stats := initStats,
      successful := 0, failed := 0, config := cfg, persisted := false, trace := [] }
  else if cfg.sync_folders = [] then
    { ok := false, message := "❌ Keine Sync-Ordner konfiguriert", stats := initStats,
      successful := 0, failed := 0, config := cfg, persisted := false, trace := [] }
  else
    let total := cfg.sync_folders.length
    let r := loopPairs cfg.mount_point env.pair total 1 initStats cfg.sync_folders
    let successful := r.1
    let failed := r.2.1
    let cfg' := { cfg with last_sync := some env.now }
    if failed = 0 then
      { ok := true, message := "✅ Alle " ++ toString successful ++ " Ordner synchronisiert",
        stats := r.2.2.1, successful := successful, failed := failed,
        config := cfg', persisted := true, trace := r.2.2.2 }
    else if 0 < successful then
      { ok := true,
        message := "⚠️ " ++ toString successful ++ " erfolgreich, " ++
          toString failed ++ " fehlgeschlagen",
        stats := r.2.2.1, successful := successful, failed := failed,
        config := cfg', persisted := true, trace := r.2.2.2 }
    else
      { ok := false, message := "❌ Alle " ++ toString failed ++ " Ordner fehlgeschlagen",
        stats := r.2.2.1, successful := successful, failed := failed,
        config := cfg', persisted := true, trace := r.2.2.2 }

/-! ### `add_sync_folder` -/

/-- `str(Path(p).expanduser())` with home directory `home`: a leading
`~` component is replaced by `home`.  (Expansion of `~user` and
`pathlib`'s normalization of redundant separators are not modelled;
the paths below contain neither.) -/
def expandUser (home p : String) : String :=
  if p = "~" then home
  else if leadsWith ['~', '/'] p.data then home ++ (⟨p.data.drop 1⟩ : String)
  else p

/-- `self.config['sync_folders'][local_path] = target_path` on the
insertion-ordered mapping: an existing key keeps its position and is
given the new value; a new key is appended. -/
def dictInsert (m : List (String × String)) (k v : String) : List (String × String) :=
  if m.any (fun kv => kv.1 = k) then
    m.map fun kv => if kv.1 = k then (k, v) else kv
  else m ++ [(k, v)]

/-- The delivered result and effects of one `add_sync_folder` call. -/
structure AddOut where
  ok : Bool
  message : String
  /-- `self.config` after the call -/
  config : Config
  /-- whether `save_config()` succeeded -/
  persisted : Bool
  deriving Repr, DecidableEq

/-- `NFSSyncBackend.add_sync_folder`.  The filesystem is supplied as
`home` (for `expanduser`) and `fsExists` (`Path(...).exists()`);
`saveError` is the outcome of `save_config()` (`none` = written). -/
def add_sync_folder (cfg : Config) (home : String) (fsExists : String → Bool)
    (saveError : Option String) (local_path target_path : String) : AddOut :=
  if local_path = "" ∨ target_path = "" then
    { ok := false, message := "❌ Beide Pfade erforderlich", config := cfg, persisted := false }
  else
    let lp := expandUser home local_path
    if fsExists lp = false then
      { ok := false, message := "❌ Lokaler Ordner existiert nicht: " ++ lp,
        config := cfg, persisted := false }
    else
      let cfg' := { cfg with sync_folders := dictInsert cfg.sync_folders lp target_path }
      match saveError with
      | none =>
        { ok := true, message := "✅ Ordnerpaar hinzugefügt", config := cfg', persisted := true }
      | some e =>
        { ok := false, message := "❌ Fehler beim Speichern: " ++ e,
          config := cfg', persisted := false }

/-! ### `PasswordManager`

`encode_password` is `base64.b64encode(password.encode()).decode()`
and `decode_password` is `base64.b64decode(encoded.encode()).decode()`
wrapped in `try/except: return None`.  Passwords are modelled at the
byte level (the `List Nat` the UTF-8 codec exchanges with the base64
codec): `str.encode`/`bytes.decode` are mutually inverse on exactly
these byte sequences, so the byte-level round trip below is the string
round trip.  The base64 decoder follows CPython's `binascii` in its
default non-strict mode: characters outside the alphabet are skipped,
`'='` is ignored until at least two data characters of the current
group have been seen, padding that completes a group ends the input,
and leftover data characters at the end raise (here: `none`). -/

/-- The standard base64 alphabet used by `base64.b64encode`. -/
def b64alphabet : List Char :=
  "ABCDEFGHIJKLMNOPQRSTUVWXYZabcdefghijklmnopqrstuvwxyz0123456789+/".data

/-- The alphabet character for a 6-bit value. -/
def b64char (n : Nat) : Char := b64alphabet.getD n 'A'

/-- The 6-bit value of an alphabet character (`none` for characters
outside the alphabet). -/
def b64val? (c : Char) : Option Nat := b64alphabet.indexOf? c

/-- Is `c` in the base64 alphabet? -/
def isB64Char (c : Char) : Bool := (b64val? c).isSome

/-- `base64.b64encode` on a byte sequence. -/
def b64encodeBytes : List Nat → List Char
  | a :: b :: c :: rest =>
    b64char (a / 4) :: b64char (a % 4 * 16 + b / 16) ::
      b64char (b % 16 * 4 + c / 64) :: b64char (c % 64) :: b64encodeBytes rest
  | [a, b] => [b64char (a / 4), b64char (a % 4 * 16 + b / 16), b64char (b % 16 * 4), '=']
  | [a] => [b64char (a / 4), b64char (a % 4 * 16), '=', '=']
  | [] => []

/-- First output byte of a base64 group. -/
def byteA (a b : Nat) : Nat := a * 4 + b / 16

/-- Second output byte of a base64 group. -/
def byteB (b c : Nat) : Nat := b % 16 * 16 + c / 4

/-- Third output byte of a base64 group. -/
def byteC (c d : Nat) : Nat := c % 4 * 64 + d

/-- The 6-bit values accumulated for the current base64 group. -/
inductive Quad where
  | q0
  | q1 (a : Nat)
  | q2 (a b : Nat)
  | q3 (a b c : Nat)
  deriving Repr, DecidableEq

/-- The scanning loop of `binascii.a2b_base64` (non-strict mode), with
the current group `quad` and the count `pads` of padding characters
seen for it. -/
def b64core : List Char → Quad → Nat → Option (List Nat)
  | [], .q0, _ => some []
  | [], _, _ => none
  | c :: cs, quad, pads =>
    if c = '=' then
      match quad with
      | .q2 a b => if 4 ≤ 2 + pads + 1 then some [byteA a b] else b64core cs quad (pads + 1)
      | .q3 a b c' => some [byteA a b, byteB b c']
      | _ => b64core cs quad pads
    else
      match b64val? c with
      | none => b64core cs quad pads
      | some v =>
        match quad with
        | .q0 => b64core cs (.q1 v) 0
        | .q1 a => b64core cs (.q2 a v) 0
        | .q2 a b => b64core cs (.q3 a b v) 0
        | .q3 a b c' =>
          (b64core cs .q0 0).map fun rest => byteA a b :: byteB b c' :: byteC c' v :: rest

/-- `base64.b64decode` on a character sequence (`none` = raises). -/
def b64decodeBytes (s : List Char) : Option (List Nat) := b64core s .q0 0

/-- Number of 6-bit values in the current group. -/
def Quad.len : Quad → Nat
  | .q0 => 0
  | .q1 _ => 1
  | .q2 _ _ => 2
  | .q3 _ _ _ => 3

/-- Acceptance checker for base64 text, tracking only the shape of the
input (group fill and padding counts), not the decoded bytes: the
grammar of inputs `base64.b64decode` accepts. -/
def b64okCore : List Char → Nat → Nat → Bool
  | [], ql, _ => ql = 0
  | c :: cs, ql, pads =>
    if c = '=' then
      if ql = 2 then (if 4 ≤ 2 + pads + 1 then true else b64okCore cs ql (pads + 1))
      else if ql = 3 then true
      else b64okCore cs ql pads
    else if isB64Char c then
      (if ql = 3 then b64okCore cs 0 0 else b64okCore cs (ql + 1) 0)
    else b64okCore cs ql pads

/-- Valid base64-encoded text: text `base64.b64decode` accepts. -/
def validB64 (s : List Char) : Bool := b64okCore s 0 0

/-- `PasswordManager.encode_password`, at the byte level. -/
def encode_password (p : List Nat) : List Char := b64encodeBytes p

/-- `PasswordManager.decode_password`, at the byte level: the
`try/except` returns `None` whenever `b64decode` raises. -/
def decode_password (s : List Char) : Option (List Nat) := b64decodeBytes s

/-! ### Trace predicates for the progress/transfer interleaving -/

/-- Every subprocess invocation in the trace immediately follows a
progress event. -/
def runPreceded : List Action → Bool
  | [] => true
  | .runCmd _ :: _ => false
  | [.progress _ _ _] => true
  | .progress _ _ _ :: .runCmd _ :: rest => runPreceded rest
  | .progress _ _ _ :: .progress i t m :: rest => runPreceded (.progress i t m :: rest)

/-- Every progress event in the trace is a pair-start marker
`"Sync idx/total: name"` for some local path — in particular, no line
of transfer output is ever passed to the progress callback. -/
def OnlyStartMarkers (tr : List Action) : Prop :=
  ∀ i t m, Action.progress i t m ∈ tr → ∃ l, m = startMsg i t l

/-! ### Cancellation (modelled from the spec)

Modelled from the spec: the GUI's sync button calls
`NFSSyncBackend.sync_all(progress_callback, finished_callback)` and
`NFSSyncBackend.stop_sync_process()`, neither of which appears in
`nfs_sync_backend.py`; the cancellation behaviour is therefore taken
from the spec's §4.1: a cancellation flag set by `cancel()`
(idempotent, no effect while idle) is checked at each pair boundary;
when it is observed, a cancellation progress event is emitted, no
further pair is started, and the run ends `Cancelled`. -/

/-- Modelled from the spec: the run-level cancellation state —
whether a run is active and whether cancellation has been
requested. -/
structure CancelState where
  active : Bool
  cancelRequested : Bool
  deriving Repr, DecidableEq

/-- Modelled from the spec: `stop_sync_process()` / `cancel()` — sets
the cancellation flag of the active run and has no effect when no run
is active. -/
def stop_sync_process (s : CancelState) : CancelState :=
  if s.active then { s with cancelRequested := true } else s

/-- Modelled from the spec: events delivered to the progress sink by a
cancellable run. -/
inductive CEvent where
  | started (idx total : Nat)
  | line (idx : Nat) (text : String)
  | finishedOk (idx : Nat)
  | finishedErr (idx : Nat) (msg : String)
  | cancelledMark
  deriving Repr, DecidableEq

/-- The pair index an event reports on (the cancellation marker
belongs to no pair). -/
def CEvent.idxOf : CEvent → Nat
  | .started i _ => i
  | .line i _ => i
  | .finishedOk i => i
  | .finishedErr i _ => i
  | .cancelledMark => 0

/-- Modelled from the spec: the outcome of one pair's Transfer — its
streamed lines and whether it ended `Ok` or `Failed`. -/
inductive COutcome where
  | ok (lines : List String)
  | fail (msg : String) (lines : List String)
  deriving Repr, DecidableEq

/-- Modelled from the spec: the aggregate a cancellable run's loop
produces. -/
structure LoopOut where
  completedCount : Nat
  succeeded : Nat
  failed : Nat
  events : List CEvent
  wasCancelled : Bool
  deriving Repr, DecidableEq

/-- Modelled from the spec: the pair loop of `sync_all`, processing
pairs `idx, idx+1, …` (`n` of them) out of `total`.  At each pair
boundary the cancellation flag (`cancelSeen`, monotone in time, here a
function of the boundary index) is consulted first; once it is seen
the pair is not started, a cancellation event is emitted and the loop
stops.  Otherwise the pair's start event, its Transfer's streamed
lines, and its finish event are emitted and the counters updated. -/
def runFrom (cancelSeen : Nat → Bool) (outcome : Nat → COutcome) (total : Nat) :
    Nat → Nat → LoopOut
  | _, 0 => { completedCount := 0, succeeded := 0, failed := 0, events := [], wasCancelled := false }
  | idx, n + 1 =>
    if cancelSeen idx then
      { completedCount := 0, succeeded := 0, failed := 0,
        events := [.cancelledMark], wasCancelled := true }
    else
      let evs : List CEvent :=
        match outcome idx with
        | .ok lines =>
          .started idx total :: lines.map (CEvent.line idx) ++ [.finishedOk idx]
        | .fail m lines =>
          .started idx total :: lines.map (CEvent.line idx) ++ [.finishedErr idx m]
      let rest := runFrom cancelSeen outcome total (idx + 1) n
      { completedCount := rest.completedCount + 1,
        succeeded := rest.succeeded + (match outcome idx with | .ok _ => 1 | .fail _ _ => 0),
        failed := rest.failed + (match outcome idx with | .ok _ => 0 | .fail _ _ => 1),
        events := evs ++ rest.events,
        wasCancelled := rest.wasCancelled }

/-- Modelled from the spec: the result of a cancellable run. -/
inductive CResult where
  | completed (success : Bool)
  | cancelled
  deriving Repr, DecidableEq

/-- Modelled from the spec: a full `sync_all` run over `total` pairs
with the given cancellation schedule and injected Transfer
outcomes. -/
def sync_all (cancelSeen : Nat → Bool) (outcome : Nat → COutcome) (total : Nat) :
    LoopOut × CResult :=
  let r := runFrom cancelSeen outcome total 1 total
  (r, if r.wasCancelled then .cancelled else .completed (r.failed = 0))

/-! ### Concrete runs used to evaluate the embedding -/

/-- A pair environment whose transfer succeeds with empty output. -/
def peOk : PairEnv := { mkdirError := none, rsync := .completed 0 "" "" }

/-- A run environment with the given per-pair environments (indexed
from pair 1), a mounted target and a fixed clock. -/
def envOf (l : List PairEnv) : RunEnv :=
  { mounted := true, now := "2025-01-01T12:00:00", pair := fun i => l.getD (i - 1) peOk }

/-- A pair environment whose transfer exits with code 1 and stderr
`"boom"`. -/
def peFailBoom : PairEnv := { mkdirError := none, rsync := .completed 1 "" "boom" }

/-- A pair environment whose transfer succeeds but whose stdout
contains a line matching `'total size'` case-insensitively without the
exact text `'total size is'`. -/
def peCrash : PairEnv := { mkdirError := none, rsync := .completed 0 "Total size: 5" "" }

/-- A configuration with the given folder pairs (otherwise the
default). -/
def cfgPairs (ps : List (String × String)) : Config :=
  { get_default_config with sync_folders := ps }

/-- An environment whose mount check fails. -/
def unmountedEnv : RunEnv :=
  { mounted := false, now := "2025-01-01T12:00:00", pair := fun _ => peOk }

/-- C1's counterexample run: two pairs, the second fails cleanly. -/
def c1run : SyncRunOut :=
  sync_folders (cfgPairs [("a", "x"), ("b", "y")]) (envOf [peOk, peFailBoom])

/-- C1's witness run: one pair, succeeding. -/
def c1wrun : SyncRunOut := sync_folders (cfgPairs [("a", "x")]) (envOf [peOk])

/-- C2's failing-input run: pair 1 is the only pair whose transfer
fails; pair 2's transfer succeeds with the stdout of `peCrash`. -/
def c2run : SyncRunOut :=
  sync_folders (cfgPairs [("a", "x"), ("b", "y")]) (envOf [peFailBoom, peCrash])

/-- C3's failing-input run: a single pair whose transfer succeeds with
the stdout of `peCrash`. -/
def c3run : SyncRunOut := sync_folders (cfgPairs [("a", "x")]) (envOf [peCrash])

/-- C4's witness run: a start on an unmounted target. -/
def c4run : SyncRunOut := sync_folders (cfgPairs [("a", "x")]) unmountedEnv

/-- C5's counterexample run: the transfer streams the line
`"sent 1 file"` and ends with a `"total size is 5"` line. -/
def c5run : SyncRunOut :=
  sync_folders (cfgPairs [("a", "x")])
    (envOf [{ mkdirError := none, rsync := .completed 0 "sent 1 file\ntotal size is 5" "" }])

/-- C6's failing-input run: an exclusion pattern is configured, and
the single pair's transfer succeeds. -/
def c6run : SyncRunOut :=
  sync_folders { cfgPairs [("a", "x")] with exclude_patterns := ["*.tmp"] } (envOf [peOk])

/-- C8's counterexample: adding a pair whose local path `"a"` is
already configured (with target `"t1"`), with an existing directory
and a successful save. -/
def c8add : AddOut :=
  add_sync_folder (cfgPairs [("a", "t1")]) "/home/u" (fun _ => true) none "a" "t2"

/-- C9's counterexample run: one succeeding pair, starting from a
configuration whose `last_sync` is unset. -/
def c9run : SyncRunOut := sync_folders (cfgPairs [("a", "x")]) (envOf [peOk])

/-! ## Theorems -/

/-- C1 (amended): for every run that reaches natural completion, the
final summary's success flag equals `(failed == 0 ∨ succeeded > 0)`:
the run reports failure only when every pair failed; a partial failure
is still reported with `success = true` (and the warning message). -/
theorem C1_success_flag (cfg : Config) (env : RunEnv) (hm : env.mounted = true)
    (hp : cfg.sync_folders ≠ []) :
    (sync_folders cfg env).ok = true ↔
      ((sync_folders cfg env).failed = 0 ∨ 0 < (sync_folders cfg env).successful) := by
  unfold sync_folders
  rw [if_neg (by simp [hm]), if_neg hp]
  dsimp only
  split_ifs with h1 h2 <;> simp_all

/-- C1: counterexample to the claim as stated — a completed run with
one succeeded and one cleanly failed pair has `failed = 1` yet reports
`success = true`, so the success flag is not `(failed == 0)`. -/
theorem C1_counterexample : c1run.ok ≠ (c1run.failed == 0) := by decide

/-- C1: witness instantiating `C1_success_flag` on a concrete
single-pair run. -/
theorem C1_witness :
    ((envOf [peOk]).mounted = true ∧ (cfgPairs [("a", "x")]).sync_folders ≠ []) ∧
      ((sync_folders (cfgPairs [("a", "x")]) (envOf [peOk])).ok = true ↔
        ((sync_folders (cfgPairs [("a", "x")]) (envOf [peOk])).failed = 0 ∨
          0 < (sync_folders (cfgPairs [("a", "x")]) (envOf [peOk])).successful)) :=
  ⟨⟨rfl, by decide⟩, C1_success_flag _ _ rfl (by decide)⟩

/-- C4: a run started on an unmounted target or with an empty pair set
returns the corresponding precondition failure (`NotMounted` /
`NoPairs` message) before any side effect: the progress callback is
never invoked, no subprocess is spawned, nothing is persisted, and the
configuration is untouched.  (The result triple is the function's
single return value, so it is delivered exactly once.) -/
theorem C4_preconditions (cfg : Config) (env : RunEnv)
    (h : env.mounted = false ∨ cfg.sync_folders = []) :
    (sync_folders cfg env).ok = false ∧
    (sync_folders cfg env).trace = [] ∧
    (sync_folders cfg env).persisted = false ∧
    (sync_folders cfg env).config = cfg ∧
    (sync_folders cfg env).message =
      (if env.mounted then "❌ Keine Sync-Ordner konfiguriert" else "❌ NFS nicht gemountet") := by
  cases hm : env.mounted with
  | false =>
    unfold sync_folders
    rw [if_pos hm]
    simp [hm]
  | true =>
    have hp : cfg.sync_folders = [] := by
      rcases h with h | h
      · rw [hm] at h; cases h
      · exact h
    unfold sync_folders
    rw [if_neg (by simp [hm]), if_pos hp]
    simp [hm]

/-- C4: witness instantiating `C4_preconditions` on a run against an
unmounted target. -/
theorem C4_witness :
    (unmountedEnv.mounted = false ∨ (cfgPairs [("a", "x")]).sync_folders = []) ∧
      ((sync_folders (cfgPairs [("a", "x")]) unmountedEnv).ok = false ∧
       (sync_folders (cfgPairs [("a", "x")]) unmountedEnv).trace = [] ∧
       (sync_folders (cfgPairs [("a", "x")]) unmountedEnv).persisted = false ∧
       (sync_folders (cfgPairs [("a", "x")]) unmountedEnv).config = cfgPairs [("a", "x")] ∧
       (sync_folders (cfgPairs [("a", "x")]) unmountedEnv).message =
         (if unmountedEnv.mounted then "❌ Keine Sync-Ordner konfiguriert"
          else "❌ NFS nicht gemountet")) :=
  ⟨Or.inl rfl, C4_preconditions _ _ (Or.inl rfl)⟩

/-- C9 (amended): a completed run persists exactly one change — it
sets `last_sync` to the completion time and saves; every other part of
the stored configuration (the folder pairs included) is unchanged. -/
theorem C9_persists_last_sync (cfg : Config) (env : RunEnv) (hm : env.mounted = true)
    (hp : cfg.sync_folders ≠ []) :
    (sync_folders cfg env).config = { cfg with last_sync := some env.now } ∧
    (sync_folders cfg env).persisted = true := by
  unfold sync_folders
  rw [if_neg (by simp [hm]), if_neg hp]
  dsimp only
  split_ifs <;> simp

/-- C9: counterexample to the claim as stated — after a completed run
the stored configuration differs from the starting one (`last_sync`
was written and saved). -/
theorem C9_counterexample : c9run.persisted = true ∧ c9run.config ≠ cfgPairs [("a", "x")] := by
  decide

/-- C2: evaluation at the failing input — pair 1 is the only pair
whose transfer fails, pair 2's transfer exits 0, yet the run ends with
`failed = 2` and two error entries, because the summary-scraping of
pair 2's stdout raises an uncaught `IndexError` after `successful` was
already incremented (the `except Exception` clause then also counts
the pair as failed). -/
theorem C2_failing_eval :
    c2run.successful = 1 ∧ c2run.failed = 2 ∧
    c2run.stats.errors = ["a: boom", "b: list index out of range"] := by decide

/-- C3: evaluation at the failing input — the single pair's transfer
exits 0 (no transfer failure), yet the run ends with `failed = 1`
(and `successful = 1` for the same pair), because the stdout line
`"Total size: 5"` passes the case-insensitive `'total size'` test but
makes `line.split('total size is')[1]` raise. -/
theorem C3_failing_eval :
    c3run.successful = 1 ∧ c3run.failed = 1 ∧ c3run.ok = true := by decide

/-- C5: counterexample to the claim as stated — the transfer's stdout
contains the progress line `"sent 1 file"`, and it was received (the
run's stats were scraped from it after completion: `total_size = "5"`),
yet the progress sink got exactly one call, the pair-start marker: no
output line is forwarded while (or after) the transfer runs. -/
theorem C5_counterexample :
    c5run.trace =
      [Action.progress 1 1 "Sync 1/1: a",
       Action.runCmd ["rsync", "-avh", "--progress", "--delete", "a/", "/mnt/unaspro/x"]] ∧
    c5run.stats.total_size = "5" := by decide

/-- C6: evaluation at the failing input — `exclude_patterns` is
configured as `["*.tmp"]`, yet the transfer is invoked with the fixed
six-element argument list, which carries no exclusion argument at all
(`rsyncCmd` does not even receive the patterns). -/
theorem C6_no_exclusion_args :
    c6run.trace =
      [Action.progress 1 1 "Sync 1/1: a",
       Action.runCmd ["rsync", "-avh", "--progress", "--delete", "a/", "/mnt/unaspro/x"]] ∧
    (c6run.trace.all fun a =>
      match a with
      | .runCmd cmd => cmd.all fun arg => !containsSub arg "exclude"
      | _ => true) = true := by decide

/-- The actions of one loop iteration are its pair-start marker alone
(the target-directory creation failed and the transfer was skipped) or
the marker directly followed by the transfer invocation. -/
theorem pairStep_trace (mp : String) (pe : PairEnv) (idx total : Nat) (l t : String)
    (st : Stats) :
    (pairStep mp pe idx total l t st).2.2.2 = [Action.progress idx total (startMsg idx total l)] ∨
    (pairStep mp pe idx total l t st).2.2.2 =
      [Action.progress idx total (startMsg idx total l), Action.runCmd (rsyncCmd mp l t)] := by
  obtain ⟨mk, rs⟩ := pe
  cases mk with
  | some e => left; rfl
  | none =>
    cases rs with
    | completed rc out err =>
      by_cases hrc : rc = 0
      · rcases h : scanStdout st (pySplit out "\n") with ⟨st', crashed⟩
        cases crashed <;> simp [pairStep, hrc, h]
      · right; simp [pairStep, hrc]
    | timeout => right; rfl
    | exn m => right; rfl

/-- The trace of the pair loop: every subprocess invocation directly
follows its pair-start marker, the trace is empty or begins with a
progress event, and every progress event is a pair-start marker. -/
theorem loopPairs_trace_shape (mp : String) (env : Nat → PairEnv) (total : Nat) :
    ∀ (pairs : List (String × String)) (idx : Nat) (st : Stats),
      runPreceded (loopPairs mp env total idx st pairs).2.2.2 = true ∧
      ((loopPairs mp env total idx st pairs).2.2.2 = [] ∨
        ∃ i t m rest,
          (loopPairs mp env total idx st pairs).2.2.2 = Action.progress i t m :: rest) ∧
      OnlyStartMarkers (loopPairs mp env total idx st pairs).2.2.2
  | [], idx, st => by
    refine ⟨rfl, Or.inl rfl, ?_⟩
    intro i t m hm
    simp [loopPairs] at hm
  | (l, t) :: rest, idx, st => by
    obtain ⟨ih1, ih2, ih3⟩ :=
      loopPairs_trace_shape mp env total rest (idx + 1)
        (pairStep mp (env idx) idx total l t st).2.2.1
    have htr : (loopPairs mp env total idx st ((l, t) :: rest)).2.2.2 =
        (pairStep mp (env idx) idx total l t st).2.2.2 ++
          (loopPairs mp env total (idx + 1) (pairStep mp (env idx) idx total l t st).2.2.1
            rest).2.2.2 := rfl
    rcases pairStep_trace mp (env idx) idx total l t st with hb | hb <;> rw [htr, hb]
    · refine ⟨?_, Or.inr ⟨_, _, _, _, rfl⟩, ?_⟩
      · rcases ih2 with h2 | ⟨i, t', m, rest', h2⟩ <;> rw [h2]
        · rfl
        · rw [h2] at ih1
          simpa [runPreceded] using ih1
      · intro i t' m hm
        rcases List.mem_cons.mp hm with heq | hmem
        · cases heq
          exact ⟨l, rfl⟩
        · exact ih3 i t' m hmem
    · refine ⟨?_, Or.inr ⟨_, _, _, _, rfl⟩, ?_⟩
      · simpa [runPreceded] using ih1
      · intro i t' m hm
        rcases List.mem_cons.mp hm with heq | hmem
        · cases heq
          exact ⟨l, rfl⟩
        · rcases List.mem_cons.mp hmem with heq' | hmem'
          · cases heq'
          · exact ih3 i t' m hmem'

/-- C5 (amended): for every pair processed during a run, the
"pair started" progress event — carrying the pair's index, the total
count and the pair's local-path basename — is emitted immediately
before its transfer is invoked; but no line of transfer output is ever
forwarded to the progress sink: the only progress events of a run are
the pair-start markers (the transfer's output is captured in full and
scanned only after the transfer completes, for the statistics). -/
theorem C5_start_marker_only (cfg : Config) (env : RunEnv) :
    runPreceded (sync_folders cfg env).trace = true ∧
    OnlyStartMarkers (sync_folders cfg env).trace := by
  unfold sync_folders
  split_ifs with h1 h2
  · exact ⟨rfl, fun i t m hm => by simp at hm⟩
  · exact ⟨rfl, fun i t m hm => by simp at hm⟩
  · dsimp only
    obtain ⟨a, b, c⟩ :=
      loopPairs_trace_shape cfg.mount_point env.pair cfg.sync_folders.length
        cfg.sync_folders 1 initStats
    split_ifs with h3 h4 <;> exact ⟨a, c⟩

/-- C9: witness instantiating `C9_persists_last_sync` on a concrete
single-pair run. -/
theorem C9_witness :
    ((envOf [peOk]).mounted = true ∧ (cfgPairs [("a", "x")]).sync_folders ≠ []) ∧
      ((sync_folders (cfgPairs [("a", "x")]) (envOf [peOk])).config =
          { cfgPairs [("a", "x")] with last_sync := some (envOf [peOk]).now } ∧
        (sync_folders (cfgPairs [("a", "x")]) (envOf [peOk])).persisted = true) :=
  ⟨⟨rfl, by decide⟩, C9_persists_last_sync _ _ rfl (by decide)⟩

/-- Once the cancellation flag is visible from boundary `k` on, the
loop never runs past pair `k`: it ends cancelled, completes at most
`k - idx` pairs, and emits no event for a pair `≥ k`. -/
theorem runFrom_cancel (cancelSeen : Nat → Bool) (outcome : Nat → COutcome) (total k : Nat)
    (hmono : ∀ j, k ≤ j → cancelSeen j = true) :
    ∀ (n idx : Nat), 1 ≤ idx → idx ≤ k → k < idx + n →
      (runFrom cancelSeen outcome total idx n).wasCancelled = true ∧
      (runFrom cancelSeen outcome total idx n).completedCount + idx ≤ k ∧
      ∀ e ∈ (runFrom cancelSeen outcome total idx n).events, e.idxOf < k
  | 0, idx, h1, h2, h3 => by omega
  | n + 1, idx, h1, h2, h3 => by
    by_cases hc : cancelSeen idx = true
    · refine ⟨by simp [runFrom, hc], by simp [runFrom, hc]; omega, ?_⟩
      intro e he
      simp [runFrom, hc] at he
      subst he
      show CEvent.idxOf .cancelledMark < k
      simp [CEvent.idxOf]
      omega
    · have hic : cancelSeen idx = false := by simpa using hc
      have hik : idx < k := by
        rcases Nat.lt_or_ge idx k with h | h
        · exact h
        · exact absurd (hmono idx h) (by simp [hic])
      obtain ⟨ih1, ih2, ih3⟩ :=
        runFrom_cancel cancelSeen outcome total k hmono n (idx + 1)
          (by omega) (by omega) (by omega)
      refine ⟨by simpa [runFrom, hic] using ih1, by simp [runFrom, hic]; omega, ?_⟩
      intro e he
      simp only [runFrom, hic, Bool.false_eq_true, if_false] at he
      rcases List.mem_append.mp he with he | he
      · have hidx : e.idxOf = idx := by
          revert he
          rcases outcome idx with ⟨lines⟩ | ⟨m, lines⟩ <;> intro he <;>
            simp only [List.mem_cons, List.mem_append, List.mem_map,
              List.mem_singleton] at he
          · rcases he with (rfl | ⟨x, hx, rfl⟩) | (rfl | h0) <;> first | rfl | cases h0
          · rcases he with (rfl | ⟨x, hx, rfl⟩) | (rfl | h0) <;> first | rfl | cases h0
        omega
      · exact ih3 e he

/-- C7: cancellation contract (modelled from the spec, as
`sync_all`/`stop_sync_process` are absent from the backend source):
`cancel()` is idempotent and has no effect when no run is active, and
a cancellation visible from pair boundary `k` on (`1 ≤ k ≤ N`) makes
the run end `Cancelled`, with fewer than `N` pairs completed and no
progress event for any pair `≥ k`. -/
theorem C7_cancellation (s : CancelState) (cancelSeen : Nat → Bool) (outcome : Nat → COutcome)
    (total k : Nat) (hk1 : 1 ≤ k) (hkN : k ≤ total)
    (hmono : ∀ j, k ≤ j → cancelSeen j = true) :
    stop_sync_process (stop_sync_process s) = stop_sync_process s ∧
    (s.active = false → stop_sync_process s = s) ∧
    (sync_all cancelSeen outcome total).2 = CResult.cancelled ∧
    (sync_all cancelSeen outcome total).1.completedCount < total ∧
    ∀ e ∈ (sync_all cancelSeen outcome total).1.events, e.idxOf < k := by
  obtain ⟨h1, h2, h3⟩ :=
    runFrom_cancel cancelSeen outcome total k hmono total 1 le_rfl hk1 (by omega)
  refine ⟨?_, ?_, ?_, ?_, ?_⟩
  · obtain ⟨a, c⟩ := s
    cases a <;> rfl
  · intro ha
    simp [stop_sync_process, ha]
  · simp [sync_all, h1]
  · simp only [sync_all]
    omega
  · simpa [sync_all] using h3

/-- C7: witness instantiating `C7_cancellation` with a cancellation
visible from the very first boundary of a two-pair run. -/
theorem C7_witness :
    ((1 : Nat) ≤ 1 ∧ (1 : Nat) ≤ 2 ∧ ∀ j : Nat, 1 ≤ j → (fun _ : Nat => true) j = true) ∧
    (stop_sync_process (stop_sync_process ⟨true, false⟩) = stop_sync_process ⟨true, false⟩ ∧
      ((⟨true, false⟩ : CancelState).active = false →
        stop_sync_process ⟨true, false⟩ = ⟨true, false⟩) ∧
      (sync_all (fun _ => true) (fun _ => .ok []) 2).2 = CResult.cancelled ∧
      (sync_all (fun _ => true) (fun _ => .ok []) 2).1.completedCount < 2 ∧
      ∀ e ∈ (sync_all (fun _ => true) (fun _ => .ok []) 2).1.events, e.idxOf < 1) :=
  ⟨⟨le_rfl, by decide, fun _ _ => rfl⟩,
    C7_cancellation ⟨true, false⟩ (fun _ => true) (fun _ => .ok []) 2 1 le_rfl (by decide)
      (fun _ _ => rfl)⟩

/-- Overwriting one key's value leaves the key sequence unchanged. -/
theorem keys_map_overwrite (m : List (String × String)) (k v : String) :
    (m.map fun kv => if kv.1 = k then (k, v) else kv).map Prod.fst = m.map Prod.fst := by
  induction m with
  | nil => rfl
  | cons kv rest ih => by_cases h : kv.1 = k <;> simp [h, ih]

/-- `dictInsert` preserves the uniqueness of the keys. -/
theorem dictInsert_keys_nodup (m : List (String × String)) (k v : String)
    (h : (m.map Prod.fst).Nodup) : ((dictInsert m k v).map Prod.fst).Nodup := by
  unfold dictInsert
  split_ifs with hmem
  · rwa [keys_map_overwrite]
  · have hk : k ∉ m.map Prod.fst := by
      simp only [List.any_eq_true, decide_eq_true_eq] at hmem
      simp only [List.mem_map, not_exists]
      rintro kv ⟨hkv, heq⟩
      exact hmem ⟨kv, hkv, heq⟩
    rw [List.map_append]
    simp [List.nodup_append, h, hk]

/-- After an overwrite of key `k`, looking `k` up yields the new
value. -/
theorem lookup_overwrite (m : List (String × String)) (k v : String)
    (h : m.any (fun kv => kv.1 = k) = true) :
    ((m.map fun kv => if kv.1 = k then (k, v) else kv).lookup k) = some v := by
  induction m with
  | nil => simp at h
  | cons kv rest ih =>
    by_cases hk : kv.1 = k
    · rw [List.map_cons, if_pos hk]
      simp [List.lookup]
    · rw [List.map_cons, if_neg hk]
      have hbe : (k == kv.1) = false := by
        simp only [beq_eq_false_iff_ne, ne_eq]
        exact fun he => hk he.symm
      have h' : rest.any (fun kv => kv.1 = k) = true := by
        simp only [List.any_cons, Bool.or_eq_true, decide_eq_true_eq] at h
        rcases h with h | h
        · exact absurd h hk
        · exact h
      simp only [List.lookup, hbe]
      exact ih h'

/-- Appending a fresh key and looking it up yields its value. -/
theorem lookup_append_self (m : List (String × String)) (k v : String)
    (h : k ∉ m.map Prod.fst) : ((m ++ [(k, v)]).lookup k) = some v := by
  induction m with
  | nil => simp [List.lookup]
  | cons kv rest ih =>
    have h1 : ¬k = kv.1 := by
      intro he
      exact h (by simp [he])
    have h2 : k ∉ rest.map Prod.fst := fun hm => h (by simp [List.mem_map] at hm ⊢; tauto)
    have hbe : (k == kv.1) = false := by
      simp only [beq_eq_false_iff_ne, ne_eq]
      exact h1
    simp only [List.cons_append, List.lookup, hbe]
    exact ih h2

/-- `dictInsert` always makes `k` map to `v`. -/
theorem dictInsert_lookup (m : List (String × String)) (k v : String) :
    (dictInsert m k v).lookup k = some v := by
  unfold dictInsert
  split_ifs with hmem
  · exact lookup_overwrite m k v hmem
  · apply lookup_append_self
    simp only [List.any_eq_true, decide_eq_true_eq] at hmem
    simp only [List.mem_map, not_exists]
    rintro kv ⟨hkv, heq⟩
    exact hmem ⟨kv, hkv, heq⟩

/-- C8 (amended): local paths stay unique in the configured set (they
are the keys of the mapping, and an add keeps the keys free of
duplicates); but an add whose (expanded) local path is already
configured is not rejected — it succeeds and overwrites the stored
target for that local path. -/
theorem C8_add_overwrites (cfg : Config) (home : String) (fs : String → Bool)
    (l t : String) (hl : l ≠ "") (ht : t ≠ "") (hex : fs (expandUser home l) = true) :
    ((cfg.sync_folders.map Prod.fst).Nodup →
      ((add_sync_folder cfg home fs none l t).config.sync_folders.map Prod.fst).Nodup) ∧
    (add_sync_folder cfg home fs none l t).ok = true ∧
    (add_sync_folder cfg home fs none l t).config.sync_folders.lookup (expandUser home l) =
      some t := by
  unfold add_sync_folder
  rw [if_neg (by tauto), if_neg (by simp [hex])]
  exact ⟨fun h => dictInsert_keys_nodup _ _ _ h, rfl, dictInsert_lookup _ _ _⟩

/-- C8: counterexample to the claim as stated — adding a pair whose
local path `"a"` is already configured (with target `"t1"`) is
accepted with the success message, and the stored target silently
becomes `"t2"`. -/
theorem C8_counterexample :
    c8add.ok = true ∧ c8add.message = "✅ Ordnerpaar hinzugefügt" ∧
    c8add.config.sync_folders = [("a", "t2")] := by decide

/-- C8: witness instantiating `C8_add_overwrites` on the concrete
duplicate add. -/
theorem C8_witness :
    (("a" : String) ≠ "" ∧ ("t2" : String) ≠ "" ∧
      (fun _ : String => true) (expandUser "/home/u" "a") = true) ∧
    (((cfgPairs [("a", "t1")]).sync_folders.map Prod.fst).Nodup →
      ((add_sync_folder (cfgPairs [("a", "t1")]) "/home/u" (fun _ => true) none "a"
          "t2").config.sync_folders.map Prod.fst).Nodup) ∧
    (add_sync_folder (cfgPairs [("a", "t1")]) "/home/u" (fun _ => true) none "a" "t2").ok =
      true ∧
    (add_sync_folder (cfgPairs [("a", "t1")]) "/home/u" (fun _ => true) none "a"
        "t2").config.sync_folders.lookup (expandUser "/home/u" "a") = some "t2" :=
  ⟨⟨by decide, by decide, rfl⟩,
    (C8_add_overwrites (cfgPairs [("a", "t1")]) "/home/u" (fun _ => true) "a" "t2"
      (by decide) (by decide) rfl).1,
    (C8_add_overwrites (cfgPairs [("a", "t1")]) "/home/u" (fun _ => true) "a" "t2"
      (by decide) (by decide) rfl).2.1,
    (C8_add_overwrites (cfgPairs [("a", "t1")]) "/home/u" (fun _ => true) "a" "t2"
      (by decide) (by decide) rfl).2.2⟩

/-- Encoding and decoding one alphabet character are inverse. -/
theorem b64val_b64char_fin : ∀ i : Fin 64, b64val? (b64char i.val) = some i.val := by decide

/-- Encoding and decoding one alphabet character are inverse. -/
theorem b64val_b64char {n : Nat} (h : n < 64) : b64val? (b64char n) = some n :=
  b64val_b64char_fin ⟨n, h⟩

/-- Alphabet characters are not the padding character. -/
theorem b64char_ne_pad_fin : ∀ i : Fin 64, b64char i.val ≠ '=' := by decide

/-- Alphabet characters are not the padding character. -/
theorem b64char_ne_pad {n : Nat} (h : n < 64) : b64char n ≠ '=' :=
  b64char_ne_pad_fin ⟨n, h⟩

/-- Decoder step on a data character with an empty group. -/
theorem b64core_q0 {c : Char} {v : Nat} (hv : b64val? c = some v) (hne : c ≠ '=')
    (cs : List Char) (pads : Nat) : b64core (c :: cs) .q0 pads = b64core cs (.q1 v) 0 := by
  simp [b64core, hne, hv]

/-- Decoder step on a data character with one value accumulated. -/
theorem b64core_q1 {c : Char} {v : Nat} (hv : b64val? c = some v) (hne : c ≠ '=')
    (cs : List Char) (a pads : Nat) :
    b64core (c :: cs) (.q1 a) pads = b64core cs (.q2 a v) 0 := by
  simp [b64core, hne, hv]

/-- Decoder step on a data character with two values accumulated. -/
theorem b64core_q2 {c : Char} {v : Nat} (hv : b64val? c = some v) (hne : c ≠ '=')
    (cs : List Char) (a b pads : Nat) :
    b64core (c :: cs) (.q2 a b) pads = b64core cs (.q3 a b v) 0 := by
  simp [b64core, hne, hv]

/-- Decoder step on a data character completing a group. -/
theorem b64core_q3 {c : Char} {v : Nat} (hv : b64val? c = some v) (hne : c ≠ '=')
    (cs : List Char) (a b c' pads : Nat) :
    b64core (c :: cs) (.q3 a b c') pads =
      (b64core cs .q0 0).map fun rest => byteA a b :: byteB b c' :: byteC c' v :: rest := by
  simp [b64core, hne, hv]

/-- Decoder step on a padding character after two data characters. -/
theorem b64core_pad_q2 (cs : List Char) (a b pads : Nat) :
    b64core ('=' :: cs) (.q2 a b) pads =
      if 4 ≤ 2 + pads + 1 then some [byteA a b] else b64core cs (.q2 a b) (pads + 1) := by
  simp [b64core]

/-- Decoder step on a padding character after three data characters. -/
theorem b64core_pad_q3 (cs : List Char) (a b c' pads : Nat) :
    b64core ('=' :: cs) (.q3 a b c') pads = some [byteA a b, byteB b c'] := by
  simp [b64core]

/-- Decoding inverts encoding on every byte sequence. -/
theorem b64_roundtrip : ∀ (p : List Nat), (∀ x ∈ p, x < 256) →
    b64decodeBytes (b64encodeBytes p) = some p
  | [], _ => rfl
  | [a], h => by
    have ha : a < 256 := h a (by simp)
    have h1 : a / 4 < 64 := by omega
    have h2 : a % 4 * 16 < 64 := by omega
    show b64core [b64char (a / 4), b64char (a % 4 * 16), '=', '='] .q0 0 = some [a]
    rw [b64core_q0 (b64val_b64char h1) (b64char_ne_pad h1),
      b64core_q1 (b64val_b64char h2) (b64char_ne_pad h2),
      b64core_pad_q2, if_neg (by omega), b64core_pad_q2, if_pos (by omega)]
    have e1 : byteA (a / 4) (a % 4 * 16) = a := by unfold byteA; omega
    rw [e1]
  | [a, b], h => by
    have ha : a < 256 := h a (by simp)
    have hb : b < 256 := h b (by simp)
    have h1 : a / 4 < 64 := by omega
    have h2 : a % 4 * 16 + b / 16 < 64 := by omega
    have h3 : b % 16 * 4 < 64 := by omega
    show b64core
        [b64char (a / 4), b64char (a % 4 * 16 + b / 16), b64char (b % 16 * 4), '='] .q0 0 =
      some [a, b]
    rw [b64core_q0 (b64val_b64char h1) (b64char_ne_pad h1),
      b64core_q1 (b64val_b64char h2) (b64char_ne_pad h2),
      b64core_q2 (b64val_b64char h3) (b64char_ne_pad h3),
      b64core_pad_q3]
    have e1 : byteA (a / 4) (a % 4 * 16 + b / 16) = a := by unfold byteA; omega
    have e2 : byteB (a % 4 * 16 + b / 16) (b % 16 * 4) = b := by unfold byteB; omega
    rw [e1, e2]
  | a :: b :: c :: rest, h => by
    have ha : a < 256 := h a (by simp)
    have hb : b < 256 := h b (by simp)
    have hc : c < 256 := h c (by simp)
    have h1 : a / 4 < 64 := by omega
    have h2 : a % 4 * 16 + b / 16 < 64 := by omega
    have h3 : b % 16 * 4 + c / 64 < 64 := by omega
    have h4 : c % 64 < 64 := by omega
    have ih := b64_roundtrip rest fun x hx => h x (by simp [hx])
    show b64core
        (b64char (a / 4) :: b64char (a % 4 * 16 + b / 16) ::
          b64char (b % 16 * 4 + c / 64) :: b64char (c % 64) :: b64encodeBytes rest) .q0 0 =
      some (a :: b :: c :: rest)
    rw [b64core_q0 (b64val_b64char h1) (b64char_ne_pad h1),
      b64core_q1 (b64val_b64char h2) (b64char_ne_pad h2),
      b64core_q2 (b64val_b64char h3) (b64char_ne_pad h3),
      b64core_q3 (b64val_b64char h4) (b64char_ne_pad h4),
      show b64core (b64encodeBytes rest) .q0 0 = some rest from ih]
    have e1 : byteA (a / 4) (a % 4 * 16 + b / 16) = a := by unfold byteA; omega
    have e2 : byteB (a % 4 * 16 + b / 16) (b % 16 * 4 + c / 64) = b := by unfold byteB; omega
    have e3 : byteC (b % 16 * 4 + c / 64) (c % 64) = c := by unfold byteC; omega
    simp [e1, e2, e3]

/-- The decoder succeeds exactly on the inputs the shape checker
accepts. -/
theorem b64core_isSome (s : List Char) : ∀ (quad : Quad) (pads : Nat),
    (b64core s quad pads).isSome = b64okCore s quad.len pads := by
  induction s with
  | nil =>
    intro quad pads
    cases quad <;> simp [b64core, b64okCore, Quad.len]
  | cons c cs ih =>
    intro quad pads
    by_cases hc : c = '='
    · subst hc
      cases quad with
      | q0 => simp [b64core, b64okCore, Quad.len, ih]
      | q1 a => simp [b64core, b64okCore, Quad.len, ih]
      | q2 a b =>
        simp only [b64core, b64okCore, Quad.len, if_pos rfl]
        split_ifs <;> simp [ih, Quad.len]
      | q3 a b c' => simp [b64core, b64okCore, Quad.len]
    · cases hv : b64val? c with
      | none =>
        have hb : isB64Char c = false := by simp [isB64Char, hv]
        cases quad <;> simp [b64core, b64okCore, Quad.len, hc, hv, hb, ih]
      | some v =>
        have hb : isB64Char c = true := by simp [isB64Char, hv]
        cases quad <;> simp [b64core, b64okCore, Quad.len, hc, hv, hb, ih]

/-- C10: `decode_password` inverts `encode_password` on every
password (modelled at the byte level exchanged between the UTF-8 and
base64 codecs), and on every stored value that is not valid base64
text — text the base64 codec rejects — it returns `None` instead of
raising (the decoder is a total function into `Option`). -/
theorem C10_password_roundtrip :
    (∀ p : List Nat, (∀ x ∈ p, x < 256) →
      decode_password (encode_password p) = some p) ∧
    (∀ s : List Char, validB64 s = false → decode_password s = none) := by
  constructor
  · exact b64_roundtrip
  · intro s hs
    have h1 : (b64core s .q0 0).isSome = false := by
      rw [b64core_isSome]
      exact hs
    cases ho : b64core s .q0 0 with
    | none => exact ho
    | some v => rw [ho] at h1; simp at h1

/-- C10: witness instantiating `C10_password_roundtrip` on the bytes
of `"hi"` and on the one-character text `"a"` (one leftover data
character: invalid base64). -/
theorem C10_witness :
    ((∀ x ∈ ([104, 105] : List Nat), x < 256) ∧ validB64 ['a'] = false) ∧
    decode_password (encode_password [104, 105]) = some [104, 105] ∧
    decode_password ['a'] = none :=
  ⟨⟨by decide, by decide⟩,
    C10_password_roundtrip.1 [104, 105] (by decide),
    C10_password_roundtrip.2 ['a'] (by decide)⟩

end NFSSync
